import Mathlib

/-!
Shallow embedding of the simulation core of the Blackhole HTML platformer
(src/game.js).  JavaScript numbers are modelled as rationals, integer-valued
counters as integers.  Each definition mirrors one function or code block of
the source; line references point into src/game.js.
-/

/-! core/math utilities (game.js lines 5-19) -/

/-- JS clamp(v, min, max) = Math.max(min, Math.min(max, v)) on numbers. -/
def clamp (v lo hi : ℚ) : ℚ := max lo (min hi v)

/-- Integer variant of the same clamp, used for array-index clamping. -/
def clampInt (v lo hi : ℤ) : ℤ := max lo (min hi v)

/-- Axis-aligned rectangle, fields as in the source object literals. -/
structure Rect where
  x : ℚ
  y : ℚ
  w : ℚ
  h : ℚ
deriving DecidableEq

/-- rectFromCenterBottom(centerX, bottomY, w, h) (game.js line 14). -/
def rectFromCenterBottom (centerX bottomY w h : ℚ) : Rect :=
  { x := centerX - w / 2, y := bottomY - h, w := w, h := h }

/-- aabbIntersects(a, b) (game.js line 17). -/
def aabbIntersects (a b : Rect) : Bool :=
  a.x < b.x + b.w && a.x + a.w > b.x && a.y < b.y + b.h && a.y + a.h > b.y

/-- INPUT_CONST.coyoteSeconds (game.js line 109). -/
def coyoteSeconds : ℚ := 6 / 60

/-! game/player state (game.js lines 338-372) -/

/-- Player state: every field mutated by the code paths under study
(constructor at game.js lines 339-372). -/
structure Player where
  x : ℚ
  y : ℚ
  spawnX : ℚ
  spawnY : ℚ
  vx : ℚ
  vy : ℚ
  grounded : Bool
  coyoteUntil : ℚ
  rolling : Bool
  rings : ℤ
  score : ℤ
  lives : ℤ
  invuln : ℚ
  jumpsRemaining : ℤ
  hasGunPower : Bool
  gunCooldown : ℚ
  powerFlash : ℚ
  shootFlash : ℚ
  comboCount : ℤ
  comboTimer : ℚ
  hasShieldPower : Bool
  shieldActive : Bool
  shieldHits : ℤ
  shieldMaxHits : ℤ
  shieldShatter : ℚ
  springLaunchTimer : ℚ
  facing : ℤ
  isBig : Bool
  growthTransformTimer : ℚ
  magnetTimer : ℚ

/-- Player constructor (game.js lines 339-372): a fresh player at (x, y). -/
def Player.init (x y : ℚ) : Player where
  x := x
  y := y
  spawnX := x
  spawnY := y
  vx := 0
  vy := 0
  grounded := false
  coyoteUntil := 0
  rolling := false
  rings := 0
  score := 0
  lives := 5
  invuln := 0
  jumpsRemaining := 2
  hasGunPower := false
  gunCooldown := 0
  powerFlash := 0
  shootFlash := 0
  comboCount := 0
  comboTimer := 0
  hasShieldPower := false
  shieldActive := false
  shieldHits := 0
  shieldMaxHits := 5
  shieldShatter := 0
  springLaunchTimer := 0
  facing := 1
  isBig := false
  growthTransformTimer := 0
  magnetTimer := 0

/-- Player.respawn({x, y}) (game.js lines 374-399): moves the player to the
given point, zeroes velocity, and resets power state; note it sets
invuln to 0. -/
def Player.respawn (p : Player) (x y : ℚ) : Player :=
  { p with
    x := x
    y := y
    vx := 0
    vy := 0
    grounded := false
    coyoteUntil := 0
    rolling := false
    invuln := 0
    jumpsRemaining := 2
    hasGunPower := false
    gunCooldown := 0
    powerFlash := 0
    shootFlash := 0
    comboCount := 0
    comboTimer := 0
    hasShieldPower := false
    shieldActive := false
    shieldHits := 0
    shieldShatter := 0
    springLaunchTimer := 0
    isBig := false
    growthTransformTimer := 0
    magnetTimer := 0 }

/-- Player.takeHit(knockDir) (game.js lines 406-445).  Priority: invulnerable
no-op; shield absorb (requires shieldActive AND hasShieldPower); rings;
big-to-small; else lose a life and respawn at the stored spawn point. -/
def Player.takeHit (p : Player) (knockDir : ℚ) : Player :=
  if p.invuln > 0 then p
  else if p.shieldActive && p.hasShieldPower then
    let hits := p.shieldHits + 1
    if hits ≥ p.shieldMaxHits then
      { p with shieldHits := hits, shieldActive := false, shieldShatter := 0.5 }
    else
      { p with shieldHits := hits }
  else if p.rings > 0 then
    { p with rings := 0, invuln := 1.0, vx := -knockDir * 2.5, vy := -4.5, grounded := false }
  else if p.isBig then
    { p with isBig := false, invuln := 1.2, vx := -knockDir * 3, vy := -5, grounded := false }
  else
    Player.respawn { p with lives := p.lives - 1, invuln := 1.0 } p.spawnX p.spawnY

/-- Player.getHitbox() (game.js lines 456-466): size depends on isBig and
rolling, anchored center-bottom at (x, y). -/
def Player.getHitbox (p : Player) : Rect :=
  let w : ℚ := if p.isBig then 20 else 16
  let h : ℚ := if p.isBig then 40 else 28
  if p.rolling then
    let rw : ℚ := if p.isBig then 30 else 24
    let rh : ℚ := if p.isBig then 30 else 24
    rectFromCenterBottom p.x p.y rw rh
  else
    rectFromCenterBottom p.x p.y w h

/-- The timer-countdown phase of Player.update (game.js lines 470-496): each
timer is decremented by dt and clamped at zero, but only when it was
strictly positive; comboCount resets exactly when comboTimer hits zero. -/
def Player.updateTimers (p : Player) (dt : ℚ) : Player :=
  let invuln := if p.invuln > 0 then max 0 (p.invuln - dt) else p.invuln
  let gunCooldown := if p.gunCooldown > 0 then max 0 (p.gunCooldown - dt) else p.gunCooldown
  let powerFlash := if p.powerFlash > 0 then max 0 (p.powerFlash - dt) else p.powerFlash
  let shootFlash := if p.shootFlash > 0 then max 0 (p.shootFlash - dt) else p.shootFlash
  let comboTimer := if p.comboTimer > 0 then max 0 (p.comboTimer - dt) else p.comboTimer
  let comboCount := if p.comboTimer > 0 ∧ comboTimer = 0 then 0 else p.comboCount
  let shieldShatter := if p.shieldShatter > 0 then max 0 (p.shieldShatter - dt) else p.shieldShatter
  let springLaunchTimer :=
    if p.springLaunchTimer > 0 then max 0 (p.springLaunchTimer - dt) else p.springLaunchTimer
  let growthTransformTimer :=
    if p.growthTransformTimer > 0 then max 0 (p.growthTransformTimer - dt)
    else p.growthTransformTimer
  let magnetTimer := if p.magnetTimer > 0 then max 0 (p.magnetTimer - dt) else p.magnetTimer
  { p with
    invuln := invuln
    gunCooldown := gunCooldown
    powerFlash := powerFlash
    shootFlash := shootFlash
    comboTimer := comboTimer
    comboCount := comboCount
    shieldShatter := shieldShatter
    springLaunchTimer := springLaunchTimer
    growthTransformTimer := growthTransformTimer
    magnetTimer := magnetTimer }

/-! Claim C10: ring-less, small, unshielded hit loses a life and respawns. -/

/-- C10: for every player with invuln = 0, shield not absorbing, rings = 0
and isBig = false, takeHit decrements lives by exactly one, respawns at the
stored spawn point with vx = vy = 0, and the resulting invulnerability timer
is 0 because respawn overwrites the 1.0 assigned inside takeHit. -/
theorem takeHit_life_loss_respawn (p : Player) (d : ℚ)
    (hinv : p.invuln = 0)
    (hshield : (p.shieldActive && p.hasShieldPower) = false)
    (hrings : p.rings = 0)
    (hbig : p.isBig = false) :
    (p.takeHit d).lives = p.lives - 1 ∧
    (p.takeHit d).x = p.spawnX ∧
    (p.takeHit d).y = p.spawnY ∧
    (p.takeHit d).vx = 0 ∧
    (p.takeHit d).vy = 0 ∧
    (p.takeHit d).invuln = 0 := by
  simp only [Player.takeHit, hinv, hshield, hrings, hbig]
  norm_num [Player.respawn]

/-- Witness for takeHit_life_loss_respawn at a concrete player. -/
theorem takeHit_life_loss_respawn_witness :
    ((Player.init 100 300).takeHit 1).lives = (Player.init 100 300).lives - 1 ∧
    ((Player.init 100 300).takeHit 1).x = (Player.init 100 300).spawnX ∧
    ((Player.init 100 300).takeHit 1).y = (Player.init 100 300).spawnY ∧
    ((Player.init 100 300).takeHit 1).vx = 0 ∧
    ((Player.init 100 300).takeHit 1).vy = 0 ∧
    ((Player.init 100 300).takeHit 1).invuln = 0 :=
  takeHit_life_loss_respawn (Player.init 100 300) 1 (by decide) (by decide) (by decide) (by decide)

/-! Claim C2: shield absorption order in takeHit. -/

/-- Concrete player whose shieldActive flag is set while hasShieldPower is
false; rings are 5 and invuln is 0. -/
def shieldClaimCx : Player :=
  { Player.init 100 300 with shieldActive := true, rings := 5 }

/-- C2 counterexample: a player with invuln = 0, shieldActive = true and
shieldHits (0) below the maximum (5) nevertheless loses its rings on takeHit,
because the absorption branch (game.js line 410) additionally requires
hasShieldPower; the claim as stated over every such player state is false. -/
theorem takeHit_shield_claim_counterexample :
    shieldClaimCx.invuln = 0 ∧
    shieldClaimCx.shieldActive = true ∧
    shieldClaimCx.shieldHits < shieldClaimCx.shieldMaxHits ∧
    shieldClaimCx.rings = 5 ∧
    (shieldClaimCx.takeHit 1).rings = 0 ∧
    (shieldClaimCx.takeHit 1).shieldHits = shieldClaimCx.shieldHits := by
  decide

/-- C2 (amended): for every player with invuln = 0, shieldActive = true AND
hasShieldPower = true, takeHit with shieldHits below the maximum leaves rings
and lives unchanged and increments shieldHits; the hit that raises shieldHits
to the maximum breaks the shield (shieldActive becomes false, the shatter
timer starts at 0.5); and the next takeHit falls through to the rings path
(zeroing positive rings, lives unchanged, shieldHits not incremented). -/
theorem takeHit_shield_absorption (p : Player) (d d2 : ℚ)
    (hinv : p.invuln = 0)
    (hact : p.shieldActive = true)
    (hpow : p.hasShieldPower = true) :
    (p.shieldHits < p.shieldMaxHits →
      (p.takeHit d).rings = p.rings ∧
      (p.takeHit d).lives = p.lives ∧
      (p.takeHit d).shieldHits = p.shieldHits + 1) ∧
    (p.shieldHits = p.shieldMaxHits - 1 →
      (p.takeHit d).shieldActive = false ∧
      (p.takeHit d).shieldShatter = 0.5) ∧
    (p.shieldHits = p.shieldMaxHits - 1 → 0 < p.rings →
      ((p.takeHit d).takeHit d2).rings = 0 ∧
      ((p.takeHit d).takeHit d2).lives = p.lives ∧
      ((p.takeHit d).takeHit d2).shieldHits = (p.takeHit d).shieldHits) := by
  have hfirst : p.takeHit d =
      (if p.shieldHits + 1 ≥ p.shieldMaxHits then
        { p with shieldHits := p.shieldHits + 1, shieldActive := false, shieldShatter := 0.5 }
      else
        { p with shieldHits := p.shieldHits + 1 }) := by
    simp [Player.takeHit, hinv, hact, hpow]
  refine ⟨?_, ?_, ?_⟩
  · intro _
    rw [hfirst]
    split <;> simp
  · intro hmax
    have : p.shieldHits + 1 ≥ p.shieldMaxHits := by omega
    rw [hfirst]
    simp [this]
  · intro hmax hr
    have hge : p.shieldHits + 1 ≥ p.shieldMaxHits := by omega
    rw [hfirst]
    simp only [hge, if_pos]
    simp [Player.takeHit, hinv, hr]

/-- Concrete shielded player used by the witness below. -/
def shieldWitnessP : Player :=
  { Player.init 100 300 with
    shieldActive := true, hasShieldPower := true, shieldHits := 4, rings := 3 }

/-- Witness for takeHit_shield_absorption: a shielded player with 3 rings,
shieldHits = 4 and shieldMaxHits = 5. -/
theorem takeHit_shield_absorption_witness :
    (shieldWitnessP.shieldHits < shieldWitnessP.shieldMaxHits →
      (shieldWitnessP.takeHit 1).rings = shieldWitnessP.rings ∧
      (shieldWitnessP.takeHit 1).lives = shieldWitnessP.lives ∧
      (shieldWitnessP.takeHit 1).shieldHits = shieldWitnessP.shieldHits + 1) ∧
    (shieldWitnessP.shieldHits = shieldWitnessP.shieldMaxHits - 1 →
      (shieldWitnessP.takeHit 1).shieldActive = false ∧
      (shieldWitnessP.takeHit 1).shieldShatter = 0.5) ∧
    (shieldWitnessP.shieldHits = shieldWitnessP.shieldMaxHits - 1 →
      0 < shieldWitnessP.rings →
      ((shieldWitnessP.takeHit 1).takeHit 1).rings = 0 ∧
      ((shieldWitnessP.takeHit 1).takeHit 1).lives = shieldWitnessP.lives ∧
      ((shieldWitnessP.takeHit 1).takeHit 1).shieldHits =
        (shieldWitnessP.takeHit 1).shieldHits) :=
  takeHit_shield_absorption shieldWitnessP 1 1 (by decide) (by decide) (by decide)

/-! Claim C9: timer countdown keeps timers nonnegative. -/

/-- Concrete player whose invuln timer is already negative. -/
def negativeTimerCx : Player := { Player.init 0 0 with invuln := -1 }

/-- C9 counterexample: the countdown guards read (timer > 0), so a player
state whose invuln timer is already negative keeps it negative after the
timer phase of Player.update; the claim quantified over every player state
is false. -/
theorem updateTimers_claim_counterexample :
    (0 : ℚ) ≤ 1 / 60 ∧ (negativeTimerCx.updateTimers (1 / 60)).invuln < 0 := by
  constructor
  · norm_num
  · norm_num [Player.updateTimers, negativeTimerCx, Player.init]

/-- C9 (amended): for every player state whose nine timers are nonnegative
(as in every reachable state) and every dt at least 0, after the timer phase
of Player.update all nine timers are still at least zero: each counts down
by dt and is clamped at zero rather than becoming negative. -/
theorem updateTimers_nonneg (p : Player) (dt : ℚ) (_hdt : 0 ≤ dt)
    (h1 : 0 ≤ p.invuln) (h2 : 0 ≤ p.gunCooldown) (h3 : 0 ≤ p.powerFlash)
    (h4 : 0 ≤ p.shootFlash) (h5 : 0 ≤ p.comboTimer) (h6 : 0 ≤ p.shieldShatter)
    (h7 : 0 ≤ p.springLaunchTimer) (h8 : 0 ≤ p.growthTransformTimer)
    (h9 : 0 ≤ p.magnetTimer) :
    0 ≤ (p.updateTimers dt).invuln ∧
    0 ≤ (p.updateTimers dt).gunCooldown ∧
    0 ≤ (p.updateTimers dt).powerFlash ∧
    0 ≤ (p.updateTimers dt).shootFlash ∧
    0 ≤ (p.updateTimers dt).comboTimer ∧
    0 ≤ (p.updateTimers dt).shieldShatter ∧
    0 ≤ (p.updateTimers dt).springLaunchTimer ∧
    0 ≤ (p.updateTimers dt).growthTransformTimer ∧
    0 ≤ (p.updateTimers dt).magnetTimer := by
  refine ⟨?_, ?_, ?_, ?_, ?_, ?_, ?_, ?_, ?_⟩ <;>
    simp only [Player.updateTimers] <;>
    split <;>
    first
      | exact le_max_left 0 _
      | assumption

/-- Witness for updateTimers_nonneg at a concrete player with mixed timer
values and dt = 1/60. -/
theorem updateTimers_nonneg_witness :
    0 ≤ (({ Player.init 0 0 with invuln := 0.5, magnetTimer := 8 } : Player).updateTimers
        (1 / 60)).invuln ∧
    0 ≤ (({ Player.init 0 0 with invuln := 0.5, magnetTimer := 8 } : Player).updateTimers
        (1 / 60)).gunCooldown ∧
    0 ≤ (({ Player.init 0 0 with invuln := 0.5, magnetTimer := 8 } : Player).updateTimers
        (1 / 60)).powerFlash ∧
    0 ≤ (({ Player.init 0 0 with invuln := 0.5, magnetTimer := 8 } : Player).updateTimers
        (1 / 60)).shootFlash ∧
    0 ≤ (({ Player.init 0 0 with invuln := 0.5, magnetTimer := 8 } : Player).updateTimers
        (1 / 60)).comboTimer ∧
    0 ≤ (({ Player.init 0 0 with invuln := 0.5, magnetTimer := 8 } : Player).updateTimers
        (1 / 60)).shieldShatter ∧
    0 ≤ (({ Player.init 0 0 with invuln := 0.5, magnetTimer := 8 } : Player).updateTimers
        (1 / 60)).springLaunchTimer ∧
    0 ≤ (({ Player.init 0 0 with invuln := 0.5, magnetTimer := 8 } : Player).updateTimers
        (1 / 60)).growthTransformTimer ∧
    0 ≤ (({ Player.init 0 0 with invuln := 0.5, magnetTimer := 8 } : Player).updateTimers
        (1 / 60)).magnetTimer :=
  updateTimers_nonneg _ _ (by norm_num) (by norm_num [Player.init]) (by norm_num [Player.init])
    (by norm_num [Player.init]) (by norm_num [Player.init]) (by norm_num [Player.init])
    (by norm_num [Player.init]) (by norm_num [Player.init]) (by norm_num [Player.init])
    (by norm_num [Player.init])

/-! Claim C4: magnet pickup collection (game.js lines 2037-2049). -/

/-- Floor magnet pickup record (game.js line 1486). -/
structure MagnetPickup where
  x : ℚ
  y : ℚ
  collected : Bool
  bob : ℚ

/-- One iteration of the magnet-pickup loop of Level.update (game.js lines
2037-2049).  jsSin stands for Math.sin and mod2pi for the reduction modulo
2*Math.PI applied to the cosmetic bob phase; both are transcendental, so they
are passed as uninterpreted functions.  px and py are the player hitbox
center computed at the top of Level.update (lines 1860-1862). -/
def magnetPickupStep (jsSin mod2pi : ℚ → ℚ) (dt : ℚ) (player : Player) (mp : MagnetPickup) :
    Player × MagnetPickup :=
  if mp.collected then (player, mp)
  else
    let hb := player.getHitbox
    let px := hb.x + hb.w / 2
    let py := hb.y + hb.h / 2
    let bob := mod2pi (mp.bob + dt * 6)
    let mx := mp.x
    let my := mp.y + jsSin bob * 4
    let mdx := px - mx
    let mdy := py - my
    if mdx * mdx + mdy * mdy ≤ 24 * 24 then
      ({ player with magnetTimer := 8 }, { mp with collected := true, bob := bob })
    else
      (player, { mp with bob := bob })

/-- The radius-overlap test of the magnet-pickup loop (game.js line 2044),
shared between the step function and the statements about it. -/
def magnetOverlap (jsSin mod2pi : ℚ → ℚ) (dt : ℚ) (player : Player) (mp : MagnetPickup) : Prop :=
  let hb := player.getHitbox
  let px := hb.x + hb.w / 2
  let py := hb.y + hb.h / 2
  let bob := mod2pi (mp.bob + dt * 6)
  let my := mp.y + jsSin bob * 4
  (px - mp.x) * (px - mp.x) + (py - my) * (py - my) ≤ 24 * 24

/-- C4: collecting a magnet pickup sets the magnet timer to the full 8-second
duration regardless of its current value, so a second collection before the
first expires again yields 8, not the sum. -/
theorem magnet_collect_no_stack (jsSin mod2pi : ℚ → ℚ) (dt : ℚ) (player : Player)
    (mp : MagnetPickup)
    (hc : mp.collected = false)
    (hov : magnetOverlap jsSin mod2pi dt player mp) :
    (magnetPickupStep jsSin mod2pi dt player mp).1.magnetTimer = 8 ∧
    (∀ (jsSin2 mod2pi2 : ℚ → ℚ) (dt2 : ℚ) (mp2 : MagnetPickup),
      mp2.collected = false →
      magnetOverlap jsSin2 mod2pi2 dt2 (magnetPickupStep jsSin mod2pi dt player mp).1 mp2 →
      (magnetPickupStep jsSin2 mod2pi2 dt2 (magnetPickupStep jsSin mod2pi dt player mp).1
          mp2).1.magnetTimer = 8) := by
  have key : ∀ (f g : ℚ → ℚ) (d : ℚ) (q : Player) (m : MagnetPickup),
      m.collected = false → magnetOverlap f g d q m →
      (magnetPickupStep f g d q m).1.magnetTimer = 8 := by
    intro f g d q m hm hov2
    simp only [magnetOverlap] at hov2
    simp only [magnetPickupStep, hm, Bool.false_eq_true, if_false]
    simp [hov2]
  exact ⟨key jsSin mod2pi dt player mp hc hov,
    fun jsSin2 mod2pi2 dt2 mp2 hc2 hov2 => key jsSin2 mod2pi2 dt2 _ mp2 hc2 hov2⟩

/-- Witness for magnet_collect_no_stack: a pickup exactly at the center of a
fresh player hitbox, with the sine modelled as the zero function. -/
theorem magnet_collect_no_stack_witness :
    (magnetPickupStep (fun _ => 0) id 1 (Player.init 100 300)
        { x := 100, y := 286, collected := false, bob := 0 }).1.magnetTimer = 8 ∧
    (∀ (jsSin2 mod2pi2 : ℚ → ℚ) (dt2 : ℚ) (mp2 : MagnetPickup),
      mp2.collected = false →
      magnetOverlap jsSin2 mod2pi2 dt2
        (magnetPickupStep (fun _ => 0) id 1 (Player.init 100 300)
          { x := 100, y := 286, collected := false, bob := 0 }).1 mp2 →
      (magnetPickupStep jsSin2 mod2pi2 dt2
          (magnetPickupStep (fun _ => 0) id 1 (Player.init 100 300)
            { x := 100, y := 286, collected := false, bob := 0 }).1
          mp2).1.magnetTimer = 8) :=
  magnet_collect_no_stack (fun _ => 0) id 1 (Player.init 100 300)
    { x := 100, y := 286, collected := false, bob := 0 } rfl
    (by norm_num [magnetOverlap, Player.init, Player.getHitbox, rectFromCenterBottom])

/-! Claim C5: mandatory-task completion gate (game.js lines 2270-2275). -/

/-- Type tags of mission tasks (game.js lines 974-980, 2254-2260). -/
inductive TaskType where
  | coins
  | flyingEnemies
  | groundEnemies
  | springsUsed
  | bothCoins
  | bossNoShield
  | timeLimit
deriving DecidableEq

/-- Mission task record (game.js lines 974-980).  The source calls this
object simply a task; the name MissionTask avoids the core Lean type Task. -/
structure MissionTask where
  id : String
  type : TaskType
  target : ℤ
  mandatory : Bool
  description : String

/-- Level.areMandatoryTasksComplete (game.js lines 2270-2275): scans the task
list and returns false on the first mandatory task whose id is not in the
completed set (modelled as a list with membership lookup). -/
def areMandatoryTasksComplete : List MissionTask → List String → Bool
  | [], _ => true
  | t :: rest, completed =>
    if t.mandatory && !(completed.contains t.id) then false
    else areMandatoryTasksComplete rest completed

/-- Helper: the gate returns true exactly when every mandatory task id is in
the completed set. -/
theorem areMandatoryTasksComplete_true_iff (tasks : List MissionTask) (completed : List String) :
    areMandatoryTasksComplete tasks completed = true ↔
      ∀ t ∈ tasks, t.mandatory = true → t.id ∈ completed := by
  induction tasks with
  | nil => simp [areMandatoryTasksComplete]
  | cons t rest ih =>
    by_cases hm : t.mandatory <;> by_cases hc : t.id ∈ completed <;>
      simp [areMandatoryTasksComplete, hm, hc, ih]

/-- C5: the gate is false exactly when some mandatory task id is absent from
the completed set, true exactly when all are present, and inserting or
erasing an id that belongs to no mandatory task never changes the result. -/
theorem areMandatoryTasksComplete_gate (tasks : List MissionTask) (completed : List String) :
    (areMandatoryTasksComplete tasks completed = true ↔
      ∀ t ∈ tasks, t.mandatory = true → t.id ∈ completed) ∧
    (areMandatoryTasksComplete tasks completed = false ↔
      ∃ t ∈ tasks, t.mandatory = true ∧ t.id ∉ completed) ∧
    (∀ i : String, (∀ t ∈ tasks, t.mandatory = true → t.id ≠ i) →
      areMandatoryTasksComplete tasks (i :: completed) =
        areMandatoryTasksComplete tasks completed ∧
      areMandatoryTasksComplete tasks (completed.erase i) =
        areMandatoryTasksComplete tasks completed) := by
  have key : ∀ (c1 c2 : List String),
      (∀ t ∈ tasks, t.mandatory = true → (t.id ∈ c1 ↔ t.id ∈ c2)) →
      areMandatoryTasksComplete tasks c1 = areMandatoryTasksComplete tasks c2 := by
    intro c1 c2 hiff
    cases h1 : areMandatoryTasksComplete tasks c1 <;>
      cases h2 : areMandatoryTasksComplete tasks c2
    · rfl
    · have : areMandatoryTasksComplete tasks c1 = true :=
        (areMandatoryTasksComplete_true_iff tasks c1).2 fun t ht hmnd =>
          (hiff t ht hmnd).2 ((areMandatoryTasksComplete_true_iff tasks c2).1 h2 t ht hmnd)
      rw [h1] at this
      exact this.symm ▸ rfl
    · have : areMandatoryTasksComplete tasks c2 = true :=
        (areMandatoryTasksComplete_true_iff tasks c2).2 fun t ht hmnd =>
          (hiff t ht hmnd).1 ((areMandatoryTasksComplete_true_iff tasks c1).1 h1 t ht hmnd)
      rw [h2] at this
      exact this ▸ rfl
    · rfl
  refine ⟨areMandatoryTasksComplete_true_iff tasks completed, ?_, ?_⟩
  · constructor
    · intro hfalse
      by_contra hno
      push_neg at hno
      have htrue : areMandatoryTasksComplete tasks completed = true :=
        (areMandatoryTasksComplete_true_iff tasks completed).2 hno
      rw [hfalse] at htrue
      exact Bool.false_ne_true htrue
    · rintro ⟨t, ht, hmnd, hnot⟩
      cases h : areMandatoryTasksComplete tasks completed
      · rfl
      · exact absurd ((areMandatoryTasksComplete_true_iff tasks completed).1 h t ht hmnd) hnot
  · intro i hi
    constructor
    · exact key _ _ fun t ht hmnd => by simp [List.mem_cons, hi t ht hmnd]
    · exact key _ _ fun t ht hmnd => List.mem_erase_of_ne (hi t ht hmnd)

/-- Witness for areMandatoryTasksComplete_gate: with one mandatory coin task
and one optional spring task, the gate is true when the mandatory id is
completed and false when the completed set is empty. -/
theorem areMandatoryTasksComplete_gate_witness :
    areMandatoryTasksComplete
      [{ id := "L0_coins", type := TaskType.coins, target := 8, mandatory := true,
         description := "Collect gold coins" },
       { id := "L0_spring", type := TaskType.springsUsed, target := 2, mandatory := false,
         description := "Use spring jumps" }] ["L0_coins"] = true ∧
    areMandatoryTasksComplete
      [{ id := "L0_coins", type := TaskType.coins, target := 8, mandatory := true,
         description := "Collect gold coins" },
       { id := "L0_spring", type := TaskType.springsUsed, target := 2, mandatory := false,
         description := "Use spring jumps" }] [] = false :=
  ⟨(areMandatoryTasksComplete_gate _ ["L0_coins"]).1.2 (by simp),
   (areMandatoryTasksComplete_gate _ []).2.1.2
     ⟨{ id := "L0_coins", type := TaskType.coins, target := 8, mandatory := true,
        description := "Collect gold coins" }, by simp, rfl, by simp⟩⟩

/-! World boxes (game.js lines 1436, 1904-1982) and the broadphase
(game.js lines 2298-2308). -/

/-- Content tag of a one-shot box (game.js line 1436). -/
inductive BoxType where
  | coin
  | powerGreen
  | powerBlue
  | growth
deriving DecidableEq

/-- One-shot activatable box record. -/
structure Box where
  x : ℚ
  y : ℚ
  w : ℚ
  h : ℚ
  type : BoxType
  used : Bool
  bounceAnim : ℚ
deriving DecidableEq

/-- Level.getSolidsNear(hb) (game.js lines 2298-2308): platform solids whose
x-range is within a 96-pixel margin of the hitbox, followed by 8-pixel-tall
box tops in the same range. -/
def getSolidsNear (solids : List Rect) (boxes : List Box) (hb : Rect) : List Rect :=
  let minX := hb.x - 96
  let maxX := hb.x + hb.w + 96
  (solids.filter fun s => decide (s.x < maxX) && decide (s.x + s.w > minX)) ++
    ((boxes.filter fun b => decide (b.x + b.w > minX) && decide (b.x < maxX)).map fun b =>
      { x := b.x, y := b.y, w := b.w, h := 8 })

/-! Collision resolution (game.js lines 596-641). -/

/-- The player state produced by a successful landing (game.js lines
612-618): bottom snapped to the solid top, vy zeroed, grounded set, coyote
window refreshed, double jump restored. -/
def landedOn (p : Player) (now : ℚ) (s : Rect) : Player :=
  { p with
    y := s.y, vy := 0, grounded := true,
    coyoteUntil := now + coyoteSeconds, jumpsRemaining := 2 }

/-- One iteration of the vertical landing loop (game.js lines 603-620).  The
hitbox hb is computed once before the loop and is NOT refreshed after a
landing; p.vy is the current (possibly already zeroed) vertical velocity. -/
def landStep (hb : Rect) (now : ℚ) (p : Player) (s : Rect) : Player :=
  if p.vy ≥ 0 ∧ hb.y + hb.h - p.vy ≤ s.y ∧ hb.y + hb.h ≥ s.y ∧
      hb.x + hb.w > s.x ∧ hb.x < s.x + s.w then
    landedOn p now s
  else p

/-- The swept top-crossing condition of the landing loop (game.js lines
604-611), for hitbox hb and tick-entry vertical velocity vy0. -/
def landingQualifies (hb : Rect) (vy0 : ℚ) (s : Rect) : Prop :=
  hb.y + hb.h - vy0 ≤ s.y ∧ hb.y + hb.h ≥ s.y ∧ hb.x + hb.w > s.x ∧ hb.x < s.x + s.w

instance (hb : Rect) (vy0 : ℚ) (s : Rect) : Decidable (landingQualifies hb vy0 s) := by
  unfold landingQualifies
  exact inferInstance

/-- The world-bound clamp at the top of Player._collideWithLevel (game.js
line 597): x is clamped to [20, level.width - 20] with the constant margin
20, whatever the current hitbox size. -/
def Player.clampToBounds (p : Player) (width : ℚ) : Player :=
  { p with x := clamp p.x 20 (width - 20) }

/-- The vertical landing pass of Player._collideWithLevel (game.js lines
599-620): the hitbox is computed once, grounded is cleared, then the
candidate solids are scanned in order by landStep. -/
def Player.verticalPass (p : Player) (now : ℚ) (solids : List Rect) : Player :=
  let hb := p.getHitbox
  List.foldl (landStep hb now) { p with grounded := false } solids

/-- The horizontal push-out pass (game.js lines 622-636): the hitbox is
computed once after the vertical pass; every solid still overlapping it
pushes the player out along the smaller horizontal overlap and zeroes vx. -/
def Player.horizontalPass (p : Player) (solids : List Rect) : Player :=
  let hb2 := p.getHitbox
  List.foldl
    (fun q s =>
      if hb2.x < s.x + s.w ∧ hb2.x + hb2.w > s.x ∧ hb2.y < s.y + s.h ∧ hb2.y + hb2.h > s.y then
        if hb2.x + hb2.w - s.x < s.x + s.w - hb2.x then
          { q with x := q.x - (hb2.x + hb2.w - s.x), vx := 0 }
        else
          { q with x := q.x + (s.x + s.w - hb2.x), vx := 0 }
      else q)
    p solids

/-- The fall-out check at the end of _collideWithLevel (game.js lines
638-640): falling 200 pixels below the level height counts as a hit. -/
def Player.fallCheck (p : Player) (height : ℚ) : Player :=
  if p.y > height + 200 then p.takeHit 1 else p

/-- Player._collideWithLevel (game.js lines 596-641) against a candidate
solid list: clamp, vertical landing pass, horizontal push-out, fall check. -/
def Player.collideWithLevel (p : Player) (now width height : ℚ) (solids : List Rect) : Player :=
  ((((p.clampToBounds width).verticalPass now solids).horizontalPass solids).fallCheck height)

/-- Helper: one landing-loop iteration never changes x. -/
theorem landStep_x (hb : Rect) (now : ℚ) (p : Player) (s : Rect) :
    (landStep hb now p s).x = p.x := by
  unfold landStep landedOn
  split <;> rfl

/-- Helper: the landing fold never changes x. -/
theorem foldl_landStep_x (hb : Rect) (now : ℚ) :
    ∀ (l : List Rect) (q : Player), (List.foldl (landStep hb now) q l).x = q.x
  | [], _ => rfl
  | s :: l, q => by
    rw [List.foldl_cons, foldl_landStep_x hb now l, landStep_x]

/-- Helper: once landed on S, scanning further candidates among which only S
qualifies leaves the state unchanged (a later re-trigger is possible only
for a solid whose top equals the stale hitbox bottom, and such a solid
itself satisfies the original qualifying condition). -/
theorem foldl_landStep_landed (hb : Rect) (now vy0 : ℚ) (p : Player) (S : Rect)
    (hvy : 0 ≤ vy0) :
    ∀ (l : List Rect), (∀ T ∈ l, landingQualifies hb vy0 T → T = S) →
      List.foldl (landStep hb now) (landedOn p now S) l = landedOn p now S
  | [], _ => rfl
  | T :: l, huniq => by
    rw [List.foldl_cons]
    have hstep : landStep hb now (landedOn p now S) T = landedOn p now S := by
      unfold landStep
      split
      · rename_i hcond
        have hvyT : (landedOn p now S).vy = 0 := rfl
        rw [hvyT] at hcond
        have hqT : landingQualifies hb vy0 T :=
          ⟨by linarith [hcond.2.1], hcond.2.2.1, hcond.2.2.2.1, hcond.2.2.2.2⟩
        have hTS : T = S := huniq T (List.mem_cons_self T l) hqT
        rw [hTS]
        rfl
      · rfl
    rw [hstep]
    exact foldl_landStep_landed hb now vy0 p S hvy l
      fun U hU hqU => huniq U (List.mem_cons_of_mem T hU) hqU

/-- Helper: starting from a falling state whose only qualifying candidate in
the list is S, the landing fold produces exactly the landed-on-S state. -/
theorem foldl_landStep_lands (hb : Rect) (now vy0 : ℚ) (p : Player) (S : Rect)
    (hvy : 0 ≤ vy0) (hpvy : p.vy = vy0) :
    ∀ (l : List Rect), (∀ T ∈ l, landingQualifies hb vy0 T → T = S) → S ∈ l →
      landingQualifies hb vy0 S →
      List.foldl (landStep hb now) p l = landedOn p now S
  | [], _, hmem, _ => absurd hmem (List.not_mem_nil S)
  | T :: l, huniq, hmem, hqS => by
    rw [List.foldl_cons]
    by_cases htrig : p.vy ≥ 0 ∧ hb.y + hb.h - p.vy ≤ T.y ∧ hb.y + hb.h ≥ T.y ∧
        hb.x + hb.w > T.x ∧ hb.x < T.x + T.w
    · have hqT : landingQualifies hb vy0 T := by
        rw [hpvy] at htrig
        exact ⟨htrig.2.1, htrig.2.2.1, htrig.2.2.2.1, htrig.2.2.2.2⟩
      have hTS : T = S := huniq T (List.mem_cons_self T l) hqT
      have hstep : landStep hb now p T = landedOn p now S := by
        unfold landStep
        rw [if_pos htrig, hTS]
      rw [hstep]
      exact foldl_landStep_landed hb now vy0 p S hvy l
        fun U hU hqU => huniq U (List.mem_cons_of_mem T hU) hqU
    · have hstep : landStep hb now p T = p := by
        unfold landStep
        rw [if_neg htrig]
      rw [hstep]
      have hmem2 : S ∈ l := by
        rcases List.mem_cons.1 hmem with hST | h
        · exfalso
          apply htrig
          subst hST
          rw [hpvy]
          exact ⟨hvy, hqS.1, hqS.2.1, hqS.2.2.1, hqS.2.2.2⟩
        · exact h
      exact foldl_landStep_lands hb now vy0 p S hvy hpvy l
        (fun U hU hqU => huniq U (List.mem_cons_of_mem T hU) hqU) hmem2 hqS

/-! Claim C1: swept landing test. -/

/-- Player used by the C1 counterexample: falling at vy = 250, bottom moved
from 100 to 350 this tick. -/
def tunnelPlayer : Player := { Player.init 350 350 with vy := 250 }

/-- Ground solid of the C1 counterexample (first element of the solids
array, game.js line 1455). -/
def tunnelGround : Rect := { x := 0, y := 300, w := 980, h := 600 }

/-- Thin platform of the C1 counterexample (game.js line 1458 with lift 0). -/
def tunnelPlatform : Rect := { x := 320, y := 250, w := 120, h := 20 }

/-- C1 counterexample: with a fast fall crossing both a thin platform top
(250) and the ground top (300) in one tick, both solids satisfy the claimed
swept-crossing conditions, but the loop lands the player on the ground (the
first list element), so the player bottom does not equal the platform top:
the claim quantified over every qualifying solid S is false, and the player
does tunnel through the platform. -/
theorem landing_claim_counterexample :
    0 ≤ tunnelPlayer.vy ∧
    tunnelPlatform ∈ getSolidsNear [tunnelGround, tunnelPlatform] [] tunnelPlayer.getHitbox ∧
    landingQualifies tunnelPlayer.getHitbox tunnelPlayer.vy tunnelPlatform ∧
    ((tunnelPlayer.clampToBounds 6200).verticalPass 0
        (getSolidsNear [tunnelGround, tunnelPlatform] [] tunnelPlayer.getHitbox)).y ≠
      tunnelPlatform.y := by
  refine ⟨by norm_num [tunnelPlayer, Player.init], ?_, ?_, ?_⟩
  · norm_num [getSolidsNear, tunnelPlayer, tunnelGround, tunnelPlatform, Player.init,
      Player.getHitbox, rectFromCenterBottom]
  · norm_num [landingQualifies, tunnelPlayer, tunnelPlatform, Player.init,
      Player.getHitbox, rectFromCenterBottom]
  · norm_num [getSolidsNear, tunnelPlayer, tunnelGround, tunnelPlatform, Player.init,
      Player.getHitbox, rectFromCenterBottom, Player.clampToBounds, clamp,
      Player.verticalPass, landStep, landedOn, min_def, max_def]

/-- C1 (amended): whenever the tick-entry state is falling or stationary
(vy at least 0) and S is the ONLY candidate returned by the broadphase that
satisfies the swept top-crossing conditions (previous bottom, reconstructed
as bottom minus vy, at-or-above the solid top; new bottom at-or-below it;
hitbox x-overlap), the resolver snaps the player bottom exactly to the top
of S, zeroes vy and sets grounded, regardless of how large the fall speed
was; with several qualifying solids the bottom snaps to the first of them in
candidate order instead. -/
theorem landing_snaps_to_unique_solid (p : Player) (now width : ℚ)
    (levelSolids : List Rect) (boxes : List Box) (S : Rect)
    (hx1 : 20 ≤ p.x) (hx2 : p.x ≤ width - 20)
    (hvy : 0 ≤ p.vy)
    (hmem : S ∈ getSolidsNear levelSolids boxes p.getHitbox)
    (hq : landingQualifies p.getHitbox p.vy S)
    (huniq : ∀ T ∈ getSolidsNear levelSolids boxes p.getHitbox,
      landingQualifies p.getHitbox p.vy T → T = S) :
    ((p.clampToBounds width).verticalPass now
        (getSolidsNear levelSolids boxes p.getHitbox)).y = S.y ∧
    ((p.clampToBounds width).verticalPass now
        (getSolidsNear levelSolids boxes p.getHitbox)).vy = 0 ∧
    ((p.clampToBounds width).verticalPass now
        (getSolidsNear levelSolids boxes p.getHitbox)).grounded = true := by
  have hcl : p.clampToBounds width = p := by
    unfold Player.clampToBounds clamp
    rw [min_eq_right hx2, max_eq_right hx1]
  rw [hcl]
  simp only [Player.verticalPass]
  rw [foldl_landStep_lands p.getHitbox now p.vy { p with grounded := false } S hvy rfl
    (getSolidsNear levelSolids boxes p.getHitbox) huniq hmem hq]
  exact ⟨rfl, rfl, rfl⟩

/-- Solid used by the C1 witness. -/
def landWitnessSolid : Rect := { x := 0, y := 300, w := 980, h := 600 }

/-- Player used by the C1 witness: a very fast fall (vy = 250). -/
def landWitnessPlayer : Player := { Player.init 350 350 with vy := 250 }

/-- Witness for landing_snaps_to_unique_solid: a fast fall onto the single
ground solid lands exactly on its top with vy zeroed and grounded set. -/
theorem landing_snaps_to_unique_solid_witness :
    ((landWitnessPlayer.clampToBounds 6200).verticalPass 0
        (getSolidsNear [landWitnessSolid] [] landWitnessPlayer.getHitbox)).y =
      landWitnessSolid.y ∧
    ((landWitnessPlayer.clampToBounds 6200).verticalPass 0
        (getSolidsNear [landWitnessSolid] [] landWitnessPlayer.getHitbox)).vy = 0 ∧
    ((landWitnessPlayer.clampToBounds 6200).verticalPass 0
        (getSolidsNear [landWitnessSolid] [] landWitnessPlayer.getHitbox)).grounded = true :=
  landing_snaps_to_unique_solid landWitnessPlayer 0 6200 [landWitnessSolid] []
    landWitnessSolid
    (by norm_num [landWitnessPlayer, Player.init])
    (by norm_num [landWitnessPlayer, Player.init])
    (by norm_num [landWitnessPlayer, Player.init])
    (by norm_num [getSolidsNear, landWitnessPlayer, landWitnessSolid, Player.init,
      Player.getHitbox, rectFromCenterBottom])
    (by norm_num [landingQualifies, landWitnessPlayer, landWitnessSolid, Player.init,
      Player.getHitbox, rectFromCenterBottom])
    (by
      intro T hT _
      simp only [getSolidsNear, List.filter, List.append_nil, List.map] at hT
      norm_num [landWitnessPlayer, landWitnessSolid, Player.init, Player.getHitbox,
        rectFromCenterBottom] at hT
      simpa using hT)

/-! Claim C7: world-bound x clamp. -/

/-- C7 counterexample: a small upright player (hitbox half-width 8) at
x = 10 in a 6200-wide level.  The claimed clamp to
[half-width, width - half-width] would leave x at 10, but the resolver
clamps with the constant margin 20 and moves the player to x = 20. -/
theorem clamp_claim_counterexample :
    (Player.init 10 300).getHitbox.w / 2 = 8 ∧
    clamp (Player.init 10 300).x ((Player.init 10 300).getHitbox.w / 2)
        (6200 - (Player.init 10 300).getHitbox.w / 2) = 10 ∧
    (((Player.init 10 300).clampToBounds 6200).verticalPass 0 []).x = 20 := by
  refine ⟨?_, ?_, ?_⟩
  · norm_num [Player.getHitbox, Player.init, rectFromCenterBottom]
  · norm_num [Player.getHitbox, Player.init, rectFromCenterBottom, clamp, min_def, max_def]
  · norm_num [Player.clampToBounds, Player.verticalPass, Player.init, clamp,
      min_def, max_def]

/-- C7 (amended): on every tick the resolver clamps the player x to the
fixed interval [20, levelWidth - 20] at the start of collision resolution,
with the constant margin 20 independent of the current hitbox (so NOT the
hitbox half-width, which is 8, 10, 12 or 15 depending on isBig and rolling);
the vertical landing pass never alters x further. -/
theorem x_clamped_every_tick (p : Player) (now width : ℚ) (solids : List Rect) :
    ((p.clampToBounds width).verticalPass now solids).x = clamp p.x 20 (width - 20) := by
  show (List.foldl (landStep (p.clampToBounds width).getHitbox now)
      { p.clampToBounds width with grounded := false } solids).x = clamp p.x 20 (width - 20)
  rw [foldl_landStep_x]
  rfl

/-! Claim C3: one-shot box activation (game.js lines 1904-1982). -/

/-- Dynamic coin record as spawned from a coin box (game.js lines
1938-1944). -/
structure Coin where
  x : ℚ
  y : ℚ
  vx : ℚ
  vy : ℚ
  active : Bool
deriving DecidableEq

/-- Power pickup released from a power box (game.js lines 1952-1960). -/
structure PowerPickup where
  x : ℚ
  y : ℚ
  vy : ℚ
  maxY : ℚ
  type : BoxType
  collected : Bool
  bob : ℚ
deriving DecidableEq

/-- Growth fruit released from a growth box (game.js lines 1967-1974). -/
structure Fruit where
  x : ℚ
  y : ℚ
  vy : ℚ
  maxY : ℚ
  collected : Bool
  bob : ℚ
deriving DecidableEq

/-- One item spawned by a box activation. -/
inductive Spawned where
  | coin (c : Coin)
  | power (p : PowerPickup)
  | fruit (f : Fruit)
deriving DecidableEq

/-- The content spawned when a box activates (game.js lines 1931-1979):
coin boxes release max(1, 1 + levelIndex mod 3) coins fanned out above the
box; power and growth boxes release one rising pickup capped 22 pixels
above the spawn point. -/
def boxContent (index : ℕ) (box : Box) : List Spawned :=
  let cx := box.x + box.w / 2
  let spawnY := box.y - 28
  match box.type with
  | BoxType.coin =>
    let count : ℕ := max 1 (1 + index % 3)
    (List.range count).map fun i =>
      Spawned.coin
        { x := cx + ((i : ℚ) - (count : ℚ) / 2) * 8
          y := spawnY
          vx := ((i : ℚ) - (count : ℚ) / 2) * 1.8
          vy := -9 - (i : ℚ) * 0.6
          active := true }
  | BoxType.powerGreen =>
    [Spawned.power
      { x := cx, y := spawnY, vy := -3.2, maxY := spawnY - 22,
        type := BoxType.powerGreen, collected := false, bob := 0 }]
  | BoxType.powerBlue =>
    [Spawned.power
      { x := cx, y := spawnY, vy := -3.2, maxY := spawnY - 22,
        type := BoxType.powerBlue, collected := false, bob := 0 }]
  | BoxType.growth =>
    [Spawned.fruit
      { x := cx, y := spawnY, vy := -3.2, maxY := spawnY - 22,
        collected := false, bob := 0 }]

/-- Result of one iteration of the box-activation loop: the updated box, the
spawned items, and the vy override applied to the player (the 0.6 head-bonk
nudge of game.js line 1981) when the box activated. -/
structure BoxStepResult where
  box : Box
  spawned : List Spawned
  playerVy : Option ℚ

/-- One iteration of the box loop of Level.update (game.js lines 1904-1982)
for a single box against the player hitbox phb and vertical velocity pvy:
decay the bounce animation; skip used boxes; require horizontal overlap,
upward motion (pvy < 0) and the swept crossing of the box bottom edge by
the player top; on activation set used, restart the bounce animation, spawn
the content and nudge the player down. -/
def boxStep (index : ℕ) (dt : ℚ) (phb : Rect) (pvy : ℚ) (box : Box) : BoxStepResult :=
  let box1 :=
    { box with
      bounceAnim := if box.bounceAnim > 0 then max 0 (box.bounceAnim - dt) else box.bounceAnim }
  if box1.used then { box := box1, spawned := [], playerVy := none }
  else if phb.x + phb.w < box1.x ∨ phb.x > box1.x + box1.w then
    { box := box1, spawned := [], playerVy := none }
  else if pvy ≥ 0 then { box := box1, spawned := [], playerVy := none }
  else
    let frameScale := dt * 60
    let playerTop := phb.y
    let playerBottom := phb.y + phb.h
    let prevPlayerTop := playerTop - pvy * frameScale
    if prevPlayerTop ≥ box1.y + box1.h ∧ playerTop < box1.y + box1.h ∧
        playerBottom > box1.y then
      { box := { box1 with used := true, bounceAnim := 0.28 }
        spawned := boxContent index box1
        playerVy := some 0.6 }
    else { box := box1, spawned := [], playerVy := none }

/-- Helper: a box activation always spawns at least one item. -/
theorem boxContent_ne_nil (index : ℕ) (box : Box) : boxContent index box ≠ [] := by
  unfold boxContent
  cases box.type <;> simp [List.range_eq_nil]
  exact ⟨0, by omega⟩

/-- Helper: the spawned content depends only on the box position, size and
type, not on the used flag or the bounce animation. -/
theorem boxContent_congr (index : ℕ) (b1 b2 : Box) (hx : b1.x = b2.x) (hy : b1.y = b2.y)
    (hw : b1.w = b2.w) (ht : b1.type = b2.type) :
    boxContent index b1 = boxContent index b2 := by
  unfold boxContent
  rw [hx, hy, hw, ht]

/-- Helper: the box loop never spawns from a used box and never clears the
used flag. -/
theorem boxStep_used (index : ℕ) (dt : ℚ) (phb : Rect) (pvy : ℚ) (b : Box)
    (hused : b.used = true) :
    (boxStep index dt phb pvy b).spawned = [] ∧
    (boxStep index dt phb pvy b).box.used = true := by
  unfold boxStep
  simp only [hused]
  exact ⟨rfl, rfl⟩

/-- C3: a single qualifying upward hit from below (horizontal overlap plus
an upward-moving swept crossing of the box bottom edge) on an unused box
spawns the box content exactly once and flips used from false to true;
running the check again on the resulting box (with any later player state)
spawns nothing, and the loop never resets used to true-to-false for any
box. -/
theorem box_activates_exactly_once (index : ℕ) (dt : ℚ) (phb : Rect) (pvy : ℚ) (box : Box)
    (hused : box.used = false)
    (hov : ¬(phb.x + phb.w < box.x ∨ phb.x > box.x + box.w))
    (hup : pvy < 0)
    (hhit : phb.y - pvy * (dt * 60) ≥ box.y + box.h ∧ phb.y < box.y + box.h ∧
      phb.y + phb.h > box.y) :
    (boxStep index dt phb pvy box).box.used = true ∧
    (boxStep index dt phb pvy box).spawned = boxContent index box ∧
    (boxStep index dt phb pvy box).spawned ≠ [] ∧
    (boxStep index dt phb pvy box).playerVy = some 0.6 ∧
    (∀ (dt2 : ℚ) (phb2 : Rect) (pvy2 : ℚ),
      (boxStep index dt2 phb2 pvy2 (boxStep index dt phb pvy box).box).spawned = [] ∧
      (boxStep index dt2 phb2 pvy2 (boxStep index dt phb pvy box).box).box.used = true) ∧
    (∀ (b : Box) (dt3 : ℚ) (phb3 : Rect) (pvy3 : ℚ), b.used = true →
      (boxStep index dt3 phb3 pvy3 b).spawned = [] ∧
      (boxStep index dt3 phb3 pvy3 b).box.used = true) := by
  have hnot : ¬ pvy ≥ 0 := not_le.2 hup
  have hfirst :
      boxStep index dt phb pvy box =
        { box :=
            { box with
              used := true, bounceAnim := 0.28 }
          spawned := boxContent index box
          playerVy := some 0.6 } := by
    unfold boxStep
    simp only [hused, hov, hnot, if_false, ite_false, Bool.false_eq_true, not_false_eq_true]
    rw [if_pos hhit]
    congr 1
  rw [hfirst]
  refine ⟨rfl, rfl, boxContent_ne_nil index box, rfl, ?_, ?_⟩
  · intro dt2 phb2 pvy2
    exact boxStep_used index dt2 phb2 pvy2 _ rfl
  · intro b dt3 phb3 pvy3 hb
    exact boxStep_used index dt3 phb3 pvy3 b hb

/-- Box used by the C3 witness: the coin box of level index 2. -/
def boxWitnessBox : Box :=
  { x := 500, y := 200, w := 32, h := 32, type := BoxType.coin, used := false, bounceAnim := 0 }

/-- Hitbox used by the C3 witness: a player jumping up under the box. -/
def boxWitnessHb : Rect := { x := 500, y := 228, w := 16, h := 28 }

/-- Witness for box_activates_exactly_once: an upward hit at vy = -6 on a
coin box at level index 2. -/
theorem box_activates_exactly_once_witness :
    (boxStep 2 (1 / 60) boxWitnessHb (-6) boxWitnessBox).box.used = true ∧
    (boxStep 2 (1 / 60) boxWitnessHb (-6) boxWitnessBox).spawned =
      boxContent 2 boxWitnessBox ∧
    (boxStep 2 (1 / 60) boxWitnessHb (-6) boxWitnessBox).spawned ≠ [] ∧
    (boxStep 2 (1 / 60) boxWitnessHb (-6) boxWitnessBox).playerVy = some 0.6 ∧
    (∀ (dt2 : ℚ) (phb2 : Rect) (pvy2 : ℚ),
      (boxStep 2 dt2 phb2 pvy2 (boxStep 2 (1 / 60) boxWitnessHb (-6) boxWitnessBox).box).spawned
        = [] ∧
      (boxStep 2 dt2 phb2 pvy2
        (boxStep 2 (1 / 60) boxWitnessHb (-6) boxWitnessBox).box).box.used = true) ∧
    (∀ (b : Box) (dt3 : ℚ) (phb3 : Rect) (pvy3 : ℚ), b.used = true →
      (boxStep 2 dt3 phb3 pvy3 b).spawned = [] ∧
      (boxStep 2 dt3 phb3 pvy3 b).box.used = true) :=
  box_activates_exactly_once 2 (1 / 60) boxWitnessHb (-6) boxWitnessBox
    rfl
    (by norm_num [boxWitnessHb, boxWitnessBox])
    (by norm_num)
    (by norm_num [boxWitnessHb, boxWitnessBox])

/-! Claim C6: boss stomp only bounces the player (game.js lines 2132-2152,
2205-2215). -/

/-- Boss state (constructor at game.js lines 1246-1262); the cosmetic hit
particles, driven by Math.random for rendering only, are omitted. -/
structure Boss where
  x : ℚ
  y : ℚ
  baseX : ℚ
  range : ℚ
  w : ℚ
  h : ℚ
  maxHp : ℤ
  hp : ℤ
  alive : Bool
  hurtTimer : ℚ
  deathTimer : ℚ
  dir : ℤ
  attackCooldown : ℚ
  attackInterval : ℚ

/-- Boss constructor (game.js lines 1246-1262). -/
def Boss.init (x y : ℚ) (levelIndex : ℤ) (maxHp : ℤ) : Boss where
  x := x
  y := y
  baseX := x
  range := 200 + (levelIndex : ℚ) * 10
  w := 96
  h := 96
  maxHp := maxHp
  hp := maxHp
  alive := true
  hurtTimer := 0
  deathTimer := 0
  dir := -1
  attackCooldown := 0
  attackInterval := 2.5 - (levelIndex : ℚ) * 0.1

/-- Boss.getAabb() (game.js lines 1264-1266). -/
def Boss.getAabb (b : Boss) : Rect :=
  { x := b.x - b.w / 2, y := b.y - b.h, w := b.w, h := b.h }

/-- Boss.takeHit(amount) (game.js lines 1268-1289), hit particles omitted:
no-op when dead; hp is clamped at 0, and at 0 the boss dies and the death
timer starts.  This is the only call site reached from the player-bullet
loop (game.js line 2209). -/
def Boss.takeHit (b : Boss) (amount : ℤ) : Boss :=
  if b.alive then
    let hp := max 0 (b.hp - amount)
    if hp ≤ 0 then { b with hp := hp, hurtTimer := 0.3, alive := false, deathTimer := 0.6 }
    else { b with hp := hp, hurtTimer := 0.3 }
  else b

/-- The player-boss contact block of Level.update (game.js lines 2135-2151):
when the boss is alive and the boxes overlap, a stomp (falling player whose
motion-corrected bottom is above the boss top plus an 8-pixel tolerance)
only sets the player vy to the -5 bounce and clears grounded; any other
contact hits the player with knockback away from the boss.  The boss record
is returned unchanged in every branch. -/
def bossContactStep (player : Player) (boss : Boss) : Player × Boss :=
  if boss.alive then
    let phb := player.getHitbox
    let bb := boss.getAabb
    if aabbIntersects phb bb then
      if player.vy > 0 ∧ phb.y + phb.h - player.vy ≤ bb.y + 8 then
        ({ player with vy := -5, grounded := false }, boss)
      else
        (player.takeHit (if player.x < boss.x then -1 else 1), boss)
    else (player, boss)
  else (player, boss)

/-- C6: the boss contact path never changes the boss (hp, alive and position
included); a stomp (overlap while falling from above) only sets the player
vy to the upward -5 bounce, and non-stomp contact routes the damage to the
player via takeHit.  Boss hp and alive change only through Boss.takeHit,
which the level calls solely from the player-bullet collision path. -/
theorem boss_stomp_only_bounces (player : Player) (boss : Boss) :
    (bossContactStep player boss).2 = boss ∧
    (boss.alive = true →
      aabbIntersects player.getHitbox boss.getAabb = true →
      player.vy > 0 →
      player.getHitbox.y + player.getHitbox.h - player.vy ≤ boss.getAabb.y + 8 →
      (bossContactStep player boss).1 = { player with vy := -5, grounded := false }) ∧
    (boss.alive = true →
      aabbIntersects player.getHitbox boss.getAabb = true →
      ¬(player.vy > 0 ∧
          player.getHitbox.y + player.getHitbox.h - player.vy ≤ boss.getAabb.y + 8) →
      (bossContactStep player boss).1 =
        player.takeHit (if player.x < boss.x then -1 else 1)) := by
  refine ⟨?_, ?_, ?_⟩
  · by_cases ha : boss.alive = true <;>
      by_cases hi : aabbIntersects player.getHitbox boss.getAabb = true
    · simp only [bossContactStep, ha, hi, eq_self_iff_true, if_true]
      split <;> rfl
    · simp [bossContactStep, ha, hi]
    · simp [bossContactStep, ha, hi]
    · simp [bossContactStep, ha, hi]
  · intro halive hint hvy habove
    unfold bossContactStep
    rw [if_pos halive, if_pos hint, if_pos ⟨hvy, habove⟩]
  · intro halive hint hnstomp
    unfold bossContactStep
    rw [if_pos halive, if_pos hint, if_neg hnstomp]

/-- Boss used by the C6 witness. -/
def bossWitnessBoss : Boss := Boss.init 500 300 0 10

/-- Player used by the C6 witness: falling onto the boss top from above. -/
def bossWitnessPlayer : Player := { Player.init 500 210 with vy := 5 }

/-- Witness for boss_stomp_only_bounces: a concrete stomp leaves the boss
untouched and bounces the player. -/
theorem boss_stomp_only_bounces_witness :
    (bossContactStep bossWitnessPlayer bossWitnessBoss).2 = bossWitnessBoss ∧
    (bossWitnessBoss.alive = true →
      aabbIntersects bossWitnessPlayer.getHitbox bossWitnessBoss.getAabb = true →
      bossWitnessPlayer.vy > 0 →
      bossWitnessPlayer.getHitbox.y + bossWitnessPlayer.getHitbox.h - bossWitnessPlayer.vy ≤
        bossWitnessBoss.getAabb.y + 8 →
      (bossContactStep bossWitnessPlayer bossWitnessBoss).1 =
        { bossWitnessPlayer with vy := -5, grounded := false }) ∧
    (bossWitnessBoss.alive = true →
      aabbIntersects bossWitnessPlayer.getHitbox bossWitnessBoss.getAabb = true →
      ¬(bossWitnessPlayer.vy > 0 ∧
          bossWitnessPlayer.getHitbox.y + bossWitnessPlayer.getHitbox.h -
            bossWitnessPlayer.vy ≤ bossWitnessBoss.getAabb.y + 8) →
      (bossContactStep bossWitnessPlayer bossWitnessBoss).1 =
        bossWitnessPlayer.takeHit
          (if bossWitnessPlayer.x < bossWitnessBoss.x then -1 else 1)) :=
  boss_stomp_only_bounces bossWitnessPlayer bossWitnessBoss

/-! Claim C8: level index clamping in createLevel (game.js lines 2703-2708,
1411-1418). -/

/-- Visual theme definition (game.js lines 985-996). -/
structure LevelDef where
  name : String
  sky : String
  hill : String
  groundTop : String
  dirt : String
deriving DecidableEq, Inhabited

/-- LEVEL_DEFS (game.js lines 985-996): the ten visual themes. -/
def LEVEL_DEFS : List LevelDef :=
  [{ name := "Green Plains (Day)", sky := "#8cb4ff", hill := "rgba(47,160,110,0.45)",
     groundTop := "#2fdc74", dirt := "#a86a2a" },
   { name := "Haunted Hills (Night)", sky := "#070814", hill := "rgba(140,140,255,0.14)",
     groundTop := "#4fe68a", dirt := "#3b2430" },
   { name := "Forest Grove", sky := "#5dc7ff", hill := "rgba(25,110,65,0.55)",
     groundTop := "#2fdc74", dirt := "#5c3b22" },
   { name := "Underwater Ruins", sky := "#154064", hill := "rgba(80,160,220,0.45)",
     groundTop := "#6ad7ff", dirt := "#24405d" },
   { name := "Desert Dunes", sky := "#ffd08a", hill := "rgba(220,160,80,0.35)",
     groundTop := "#c7ff6a", dirt := "#c08a2a" },
   { name := "Sky Islands", sky := "#bfe6ff", hill := "rgba(255,255,255,0.45)",
     groundTop := "#e8fff7", dirt := "#6a7a8a" },
   { name := "Lava Caverns", sky := "#2a0b0b", hill := "rgba(255,120,60,0.25)",
     groundTop := "#ffcc6a", dirt := "#5a1a10" },
   { name := "City Rooftops", sky := "#0a0f2a", hill := "rgba(255,255,255,0.10)",
     groundTop := "#5dffb0", dirt := "#3a3a44" },
   { name := "Ocean Night", sky := "#062238", hill := "rgba(40,170,220,0.35)",
     groundTop := "#2fdc74", dirt := "#20485f" },
   { name := "Starship Zone", sky := "#05060d", hill := "rgba(120,255,240,0.12)",
     groundTop := "#66fff0", dirt := "#2a2a38" }]

/-- The index-derived scalar fields assigned by the Level constructor
(game.js lines 1411-1444).  The source field holding the theme is named
def, a Lean keyword, kept here as defn; the entity collections are filled
later by reset(). -/
structure Level where
  defn : LevelDef
  index : ℤ
  width : ℚ
  height : ℚ
  goalX : ℚ

/-- Level constructor (game.js lines 1412-1444) on its index-derived scalar
fields: width = 6200 + index * 520, height = 900, goalX = width - 120. -/
def Level.make (d : LevelDef) (index : ℤ) : Level where
  defn := d
  index := index
  width := 6200 + (index : ℚ) * 520
  height := 900
  goalX := (6200 + (index : ℚ) * 520) - 120

/-- createLevel(levelIndex) (game.js lines 2703-2708): the theme def lookup
clamps the index into [0, LEVEL_DEFS.length - 1], but the Level itself is
constructed with the RAW levelIndex. -/
def createLevel (levelIndex : ℤ) : Level :=
  let d := LEVEL_DEFS.getD (clampInt levelIndex 0 ((LEVEL_DEFS.length : ℤ) - 1)).toNat default
  Level.make d levelIndex

/-- C8 counterexample: createLevel 10 and createLevel (clamp 10 0 9) differ
in the level width (11400 versus 10880), so an out-of-range index is NOT
clamped before level construction and the produced level is not identical to
the clamped one in the level-derived values. -/
theorem createLevel_claim_counterexample :
    clampInt 10 0 ((LEVEL_DEFS.length : ℤ) - 1) = 9 ∧
    (createLevel 10).width = 11400 ∧
    (createLevel (clampInt 10 0 ((LEVEL_DEFS.length : ℤ) - 1))).width = 10880 ∧
    (createLevel 10).width ≠ (createLevel (clampInt 10 0 ((LEVEL_DEFS.length : ℤ) - 1))).width := by
  have hlen : (LEVEL_DEFS.length : ℤ) = 10 := by rfl
  refine ⟨?_, ?_, ?_, ?_⟩ <;>
    norm_num [hlen, createLevel, Level.make, clampInt, min_def, max_def]

/-- C8 (amended): only the visual theme definition is clamped: for every
integer levelIndex, createLevel picks the theme of the clamped index but
builds the Level with the raw index, so the width is 6200 + levelIndex * 520
(and similarly every index-derived value uses the raw index). -/
theorem createLevel_clamps_theme_only (i : ℤ) :
    (createLevel i).defn = (createLevel (clampInt i 0 ((LEVEL_DEFS.length : ℤ) - 1))).defn ∧
    (createLevel i).index = i ∧
    (createLevel i).width = 6200 + (i : ℚ) * 520 ∧
    (createLevel i).height = 900 ∧
    (createLevel i).goalX = (6200 + (i : ℚ) * 520) - 120 := by
  have hidem : clampInt (clampInt i 0 ((LEVEL_DEFS.length : ℤ) - 1)) 0
      ((LEVEL_DEFS.length : ℤ) - 1) = clampInt i 0 ((LEVEL_DEFS.length : ℤ) - 1) := by
    unfold clampInt
    omega
  refine ⟨?_, rfl, rfl, rfl, rfl⟩
  show (LEVEL_DEFS.getD (clampInt i 0 ((LEVEL_DEFS.length : ℤ) - 1)).toNat default) =
    (LEVEL_DEFS.getD (clampInt (clampInt i 0 ((LEVEL_DEFS.length : ℤ) - 1)) 0
      ((LEVEL_DEFS.length : ℤ) - 1)).toNat default)
  rw [hidem]
